import Mathlib

/-!
Shallow embedding of the Ozoo zoo-simulation core (animals, enclosures,
resource ledger, zoo orchestration, events, health observer) together with
proofs of the specification claims about it.

Python floats are modelled as rationals, Python ints as integers (lengths
as naturals where the source value is a collection size), dictionaries as
association lists, and raised exceptions as explicit `Except`-style results
paired with the post-state of the mutated object.  Mutating methods of the
source become functions returning the updated state; a method that can
raise returns the state reached at the point the exception escapes,
together with the exception, mirroring Python's in-place mutation.
-/

namespace Ozoo

/-- Embeds `DietType` from `animals/animal.py`. -/
inductive DietType where
  | carnivore
  | herbivore
  | omnivore
  deriving DecidableEq, Repr

/-- Tag for the concrete animal subclass, carrying the subclass fields the
behaviour depends on (`Bird._can_fly`, `Reptile._is_venomous`). -/
inductive AnimalKind where
  | mammal
  | bird (canFly : Bool)
  | reptile (isVenomous : Bool)
  deriving DecidableEq, Repr

/-- Embeds the state of `Animal` from `animals/animal.py` (plus the subclass
tag used for polymorphic dispatch of `eat` / `update_daily_status`). -/
structure Animal where
  name : String
  species : String
  age : ℤ
  health : ℚ
  hunger : ℚ
  happiness : ℚ
  diet : DietType
  habitat : String
  kind : AnimalKind
  deriving DecidableEq, Repr

/-- Embeds `Animal.__init__`: health 100, hunger 0, happiness 100. -/
def Animal.make (name species : String) (age : ℤ) (diet : DietType)
    (habitat : String) (kind : AnimalKind) : Animal :=
  { name := name, species := species, age := age, health := 100, hunger := 0,
    happiness := 100, diet := diet, habitat := habitat, kind := kind }

/-- Embeds `Animal._modify_health`: `health = max(0, min(100, health + amount))`. -/
def Animal.modify_health (a : Animal) (amount : ℚ) : Animal :=
  { a with health := max 0 (min 100 (a.health + amount)) }

/-- Embeds `Animal._modify_hunger`. -/
def Animal.modify_hunger (a : Animal) (amount : ℚ) : Animal :=
  { a with hunger := max 0 (min 100 (a.hunger + amount)) }

/-- Embeds `Animal._modify_happiness`. -/
def Animal.modify_happiness (a : Animal) (amount : ℚ) : Animal :=
  { a with happiness := max 0 (min 100 (a.happiness + amount)) }

/-- One day's worth of random draws for a single animal:
`u1 ~ uniform(5,15)` (hunger increase), `u2 ~ uniform(2,5)` (health loss when
hunger > 70), `u3 ~ uniform(1,3)` (random ailment), `issue` (the
`random.random() < 0.1` coin), `social` (the mammal `random.random() < 0.3`
coin), `relax` (the reptile `random.random() < 0.4` coin). -/
structure AnimalDraw where
  u1 : ℚ
  u2 : ℚ
  u3 : ℚ
  issue : Bool
  social : Bool
  relax : Bool
  deriving DecidableEq, Repr

/-- Embeds `Animal.update_daily_status` from `animals/animal.py`.  Note that
the source mutates the name-mangled private fields directly (it does not go
through `_modify_health` and friends): hunger is increased and clamped above
at 100, health and happiness are decreased and clamped below at 0, in this
exact order, with the happiness decrease reading the already-updated hunger. -/
def Animal.update_daily_status (a : Animal) (d : AnimalDraw) : Animal :=
  let hunger1 := min 100 (a.hunger + d.u1)
  let health1 := if hunger1 > 70 then max 0 (a.health - d.u2) else a.health
  let happiness1 := max 0 (a.happiness - (hunger1 * (1/10) + (a.age : ℚ) * (1/2)))
  let health2 := if d.issue then max 0 (health1 - d.u3) else health1
  { a with hunger := hunger1, health := health2, happiness := happiness1 }

/-- Embeds the subclass overrides of `update_daily_status`
(`Mammal`, `Bird`, `Reptile`): each calls the base update and then applies
its extra bounded-delta adjustments. -/
def Animal.update_daily_status_poly (a : Animal) (d : AnimalDraw) : Animal :=
  let b := a.update_daily_status d
  match a.kind with
  | .mammal => if d.social then b.modify_happiness 2 else b
  | .bird canFly => if canFly then b.modify_hunger 5 else b
  | .reptile _ =>
      let b1 := b.modify_hunger (-5)
      if d.relax then b1.modify_happiness 3 else b1

/-- `needle in hay` on strings, as used by the `eat` overrides. -/
def strContains (hay needle : String) : Bool :=
  hay.toList.tails.any (fun t => needle.toList.isPrefixOf t)

/-- Embeds Python `str.lower()` (ASCII case folding suffices for the
species and food names used by the source). -/
def pyLower (s : String) : String :=
  String.mk (s.toList.map Char.toLower)

instance {ε α : Type} [DecidableEq ε] [DecidableEq α] : DecidableEq (Except ε α) := fun x y =>
  match x, y with
  | .error a, .error b =>
      if h : a = b then .isTrue (by rw [h]) else .isFalse (by simp [h])
  | .ok a, .ok b =>
      if h : a = b then .isTrue (by rw [h]) else .isFalse (by simp [h])
  | .error _, .ok _ => .isFalse (by simp)
  | .ok _, .error _ => .isFalse (by simp)

/-- Embeds the polymorphic `eat` call (`Mammal.eat`, `Bird.eat`,
`Reptile.eat`): returns the animal after its bounded-delta vital changes
together with the outcome string.  None of the source implementations
raises. -/
def Animal.eat (a : Animal) (food : String) : Animal × String :=
  match a.kind with
  | .mammal =>
      if a.diet = DietType.carnivore ∧ strContains (pyLower food) "meat" = false then
        (a, a.name ++ " sniffs the " ++ food ++ " but refuses to eat it - needs meat!")
      else if a.diet = DietType.herbivore ∧ strContains (pyLower food) "meat" = true then
        (a, a.name ++ " looks disgusted by the " ++ food ++ " - prefers plants!")
      else
        ((a.modify_hunger (-30)).modify_happiness 5,
          a.name ++ " happily eats the " ++ food ++ " with mammalian appetite!")
  | .bird canFly =>
      let style := if canFly then "pecks at" else "waddles to"
      if strContains (pyLower food) "seed" = true ∨ strContains (pyLower food) "worm" = true then
        ((a.modify_hunger (-25)).modify_happiness 8,
          a.name ++ " " ++ style ++ " the " ++ food ++ " enthusiastically!")
      else
        (a.modify_hunger (-15), a.name ++ " cautiously " ++ style ++ " the " ++ food ++ ".")
  | .reptile isVenomous =>
      if strContains (pyLower food) "insect" = true ∨ strContains (pyLower food) "rodent" = true then
        ((a.modify_hunger (-40)).modify_happiness 3,
          a.name ++ " slowly consumes the " ++ food ++ (if isVenomous then " using venom!" else "."))
      else
        (a.modify_hunger (-20), a.name ++ " cautiously tastes the " ++ food ++ " before eating.")

/-- Embeds the exception taxonomy of `core/exceptions.py`, plus Python's
built-in `ValueError` and `NameError` (the latter arises when an `except`
clause references a name that is not defined in the raising module). -/
inductive ZooExc where
  | enclosureError (msg : String)
  | compatibilityError (msg : String) (animal1_species animal2_species : String)
  | financialError (msg : String) (current_balance required_amount : ℚ)
  | resourceError (msg : String)
  | valueError (msg : String)
  | nameError (msg : String)
  deriving DecidableEq, Repr

/-- Embeds the state of `ResourceManager` from `zoo/resource_manager.py`. -/
structure ResourceManager where
  funds : ℚ
  daily_costs : ℚ
  daily_income : ℚ
  food_supply : List (String × ℚ)
  medicine_supply : List (String × ℤ)
  deriving DecidableEq, Repr

/-- Embeds `ResourceManager.__init__` with its fixed starting supplies. -/
def ResourceManager.make (initial_funds : ℚ) : ResourceManager :=
  { funds := initial_funds, daily_costs := 0, daily_income := 0,
    food_supply := [("meat", 100), ("fish", 50), ("seeds", 200), ("fruits", 150),
      ("vegetables", 100), ("insects", 20)],
    medicine_supply := [("vaccine", 10), ("antibiotics", 15), ("pain_reliever", 20),
      ("vitamins", 25)] }

/-- Dictionary lookup on the food-supply association list. -/
def lookupFood (s : List (String × ℚ)) (k : String) : Option ℚ :=
  (s.find? (fun p => p.1 = k)).map Prod.snd

/-- Dictionary assignment (existing key) on the food-supply association list. -/
def updateFood (s : List (String × ℚ)) (k : String) (v : ℚ) : List (String × ℚ) :=
  s.map (fun p => if p.1 = k then (p.1, v) else p)

/-- The `FinancialError` raised by `spend_funds` for a negative amount. -/
def invalidAmountExc (balance required : ℚ) : ZooExc :=
  .financialError "Cannot spend negative amount" balance required

/-- The `FinancialError` raised by `spend_funds` when funds are short. -/
def insufficientFundsExc (purpose : String) (balance required : ℚ) : ZooExc :=
  .financialError ("Insufficient funds for " ++ purpose) balance required

/-- Embeds `ResourceManager.spend_funds`.  The first component is the
manager state after the call (unchanged whenever an exception is raised,
since the source raises before any mutation). -/
def spend_funds (rm : ResourceManager) (amount : ℚ) (purpose : String) :
    ResourceManager × Except ZooExc Bool :=
  if amount < 0 then
    (rm, .error (invalidAmountExc rm.funds amount))
  else if rm.funds ≥ amount then
    ({ rm with funds := rm.funds - amount, daily_costs := rm.daily_costs + amount }, .ok true)
  else
    (rm, .error (insufficientFundsExc purpose rm.funds amount))

/-- Embeds `ResourceManager.add_funds` (raises `ValueError` on a negative
amount, otherwise credits funds and the daily-income accumulator). -/
def add_funds (rm : ResourceManager) (amount : ℚ) :
    ResourceManager × Except ZooExc Unit :=
  if amount < 0 then
    (rm, .error (.valueError "Cannot add negative funds"))
  else
    ({ rm with funds := rm.funds + amount, daily_income := rm.daily_income + amount }, .ok ())

/-- Embeds `ResourceManager.use_food`: unknown food type and insufficient
supply raise `ResourceError` before any mutation; on success the supply is
debited. -/
def use_food (rm : ResourceManager) (food_type : String) (amount : ℚ) :
    ResourceManager × Except ZooExc Bool :=
  match lookupFood rm.food_supply food_type with
  | none => (rm, .error (.resourceError ("Unknown food type: " ++ food_type)))
  | some q =>
      if q ≥ amount then
        ({ rm with food_supply := updateFood rm.food_supply food_type (q - amount) }, .ok true)
      else
        (rm, .error (.resourceError ("Insufficient " ++ food_type)))

/-- Embeds `ResourceManager.reset_daily_stats`. -/
def reset_daily_stats (rm : ResourceManager) : ResourceManager :=
  { rm with daily_costs := 0, daily_income := 0 }

/-- C4: `spend_funds` raises the InsufficientFunds-kind `FinancialError`
exactly when the amount exceeds the funds (among non-negative amounts),
raises the InvalidAmount-kind error on a negative amount, leaves funds and
the daily-cost accumulator unchanged on any failure, and on success debits
funds by exactly the amount and adds exactly the amount to the daily-cost
accumulator. -/
theorem spend_funds_spec (rm : ResourceManager) (amount : ℚ) (purpose : String) :
    (amount < 0 →
      spend_funds rm amount purpose = (rm, .error (invalidAmountExc rm.funds amount))) ∧
    (0 ≤ amount →
      ((spend_funds rm amount purpose).2 =
          .error (insufficientFundsExc purpose rm.funds amount) ↔ rm.funds < amount)) ∧
    (∀ e, (spend_funds rm amount purpose).2 = .error e →
      (spend_funds rm amount purpose).1 = rm) ∧
    (0 ≤ amount → amount ≤ rm.funds →
      spend_funds rm amount purpose =
        ({ rm with funds := rm.funds - amount, daily_costs := rm.daily_costs + amount },
          .ok true)) := by
  unfold spend_funds
  refine ⟨fun hneg => by rw [if_pos hneg], ?_, ?_, ?_⟩
  · intro hpos
    rw [if_neg (not_lt.mpr hpos)]
    by_cases hge : rm.funds ≥ amount
    · rw [if_pos hge]
      simp only [iff_false, not_lt.mpr hge]
      intro h
      exact absurd h (by simp)
    · rw [if_neg hge]
      simp only [not_le.mp hge, iff_true]
  · intro e
    split_ifs with h1 h2 <;> simp
  · intro hpos hle
    rw [if_neg (not_lt.mpr hpos), if_pos hle]

/-- Witness for `spend_funds_spec`: concrete negative-amount failure,
insufficient-funds failure (funds 100, amount 150, state unchanged) and
success (funds 100, amount 40). -/
theorem spend_funds_spec_witness :
    (spend_funds (ResourceManager.make 100) (-1) "x" =
      (ResourceManager.make 100, .error (invalidAmountExc (ResourceManager.make 100).funds (-1)))) ∧
    ((spend_funds (ResourceManager.make 100) 150 "repairs").2 =
        .error (insufficientFundsExc "repairs" (ResourceManager.make 100).funds 150) ↔
      (ResourceManager.make 100).funds < 150) ∧
    (spend_funds (ResourceManager.make 100) 40 "feed" =
      ({ ResourceManager.make 100 with
          funds := (ResourceManager.make 100).funds - 40,
          daily_costs := (ResourceManager.make 100).daily_costs + 40 }, .ok true)) := by
  refine ⟨(spend_funds_spec (ResourceManager.make 100) (-1) "x").1 (by norm_num),
    (spend_funds_spec (ResourceManager.make 100) 150 "repairs").2.1 (by norm_num),
    (spend_funds_spec (ResourceManager.make 100) 40 "feed").2.2.2 (by norm_num) ?_⟩
  show (40 : ℚ) ≤ 100
  norm_num

/-- The three vitals of an animal lie in the interval `[0, 100]`. -/
def vitalsInRange (a : Animal) : Prop :=
  0 ≤ a.health ∧ a.health ≤ 100 ∧ 0 ≤ a.hunger ∧ a.hunger ≤ 100 ∧
    0 ≤ a.happiness ∧ a.happiness ≤ 100

/-- One call that mutates an animal's vitals: a bounded-delta modification
of one vital, or a (subclass-dispatched) daily status update. -/
inductive VitalStep where
  | modHealth (d : ℚ)
  | modHunger (d : ℚ)
  | modHappiness (d : ℚ)
  | daily (d : AnimalDraw)
  deriving DecidableEq, Repr

/-- Runs one vital-mutating call of the source. -/
def applyVitalStep (a : Animal) : VitalStep → Animal
  | .modHealth d => a.modify_health d
  | .modHunger d => a.modify_hunger d
  | .modHappiness d => a.modify_happiness d
  | .daily d => a.update_daily_status_poly d

/-- A step is valid when its random draws lie in the supports of the
distributions the source draws them from (`uniform(5,15)`, `uniform(2,5)`,
`uniform(1,3)`); the bounded-delta modifications take arbitrary deltas. -/
def VitalStep.valid : VitalStep → Prop
  | .daily d => 5 ≤ d.u1 ∧ d.u1 ≤ 15 ∧ 2 ≤ d.u2 ∧ d.u2 ≤ 5 ∧ 1 ≤ d.u3 ∧ d.u3 ≤ 3
  | _ => True

instance : DecidablePred VitalStep.valid := by
  intro s
  cases s <;> simp only [VitalStep.valid] <;> infer_instance

instance (a : Animal) : Decidable (vitalsInRange a) := by
  unfold vitalsInRange
  infer_instance

theorem clamp_mem (x : ℚ) : 0 ≤ max 0 (min 100 x) ∧ max 0 (min 100 x) ≤ 100 :=
  ⟨le_max_left 0 _, max_le (by norm_num) (min_le_left 100 x)⟩

theorem modify_health_mem (a : Animal) (d : ℚ) (h : vitalsInRange a) :
    vitalsInRange (a.modify_health d) := by
  obtain ⟨h1, h2, h3, h4, h5, h6⟩ := h
  exact ⟨(clamp_mem _).1, (clamp_mem _).2, h3, h4, h5, h6⟩

theorem modify_hunger_mem (a : Animal) (d : ℚ) (h : vitalsInRange a) :
    vitalsInRange (a.modify_hunger d) := by
  obtain ⟨h1, h2, h3, h4, h5, h6⟩ := h
  exact ⟨h1, h2, (clamp_mem _).1, (clamp_mem _).2, h5, h6⟩

theorem modify_happiness_mem (a : Animal) (d : ℚ) (h : vitalsInRange a) :
    vitalsInRange (a.modify_happiness d) := by
  obtain ⟨h1, h2, h3, h4, h5, h6⟩ := h
  exact ⟨h1, h2, h3, h4, (clamp_mem _).1, (clamp_mem _).2⟩

theorem update_daily_status_mem (a : Animal) (d : AnimalDraw)
    (h : vitalsInRange a) (hage : 0 ≤ a.age)
    (h1 : 0 ≤ d.u1) (h2 : 0 ≤ d.u2) (h3 : 0 ≤ d.u3) :
    vitalsInRange (a.update_daily_status d) := by
  obtain ⟨hh1, hh2, hg1, hg2, hp1, hp2⟩ := h
  have hageQ : (0 : ℚ) ≤ (a.age : ℚ) := by exact_mod_cast hage
  have hu1 : (0 : ℚ) ≤ min 100 (a.hunger + d.u1) := le_min (by norm_num) (by linarith)
  have hu2 : min 100 (a.hunger + d.u1) ≤ 100 := min_le_left _ _
  have hhl : 0 ≤ (if min 100 (a.hunger + d.u1) > 70 then max 0 (a.health - d.u2) else a.health) := by
    split
    · exact le_max_left _ _
    · exact hh1
  have hhu : (if min 100 (a.hunger + d.u1) > 70 then max 0 (a.health - d.u2) else a.health) ≤ 100 := by
    split
    · exact max_le (by norm_num) (by linarith)
    · exact hh2
  unfold Animal.update_daily_status
  refine ⟨?_, ?_, hu1, hu2, le_max_left _ _, ?_⟩
  · split
    · exact le_max_left _ _
    · exact hhl
  · split
    · exact max_le (by norm_num) (by linarith [hhu])
    · exact hhu
  · refine max_le (by norm_num) ?_
    nlinarith [hu1, hageQ]

theorem update_daily_status_poly_mem (a : Animal) (d : AnimalDraw)
    (h : vitalsInRange a) (hage : 0 ≤ a.age)
    (h1 : 0 ≤ d.u1) (h2 : 0 ≤ d.u2) (h3 : 0 ≤ d.u3) :
    vitalsInRange (a.update_daily_status_poly d) := by
  have hb := update_daily_status_mem a d h hage h1 h2 h3
  unfold Animal.update_daily_status_poly
  cases a.kind with
  | mammal =>
      dsimp only
      split
      · exact modify_happiness_mem _ _ hb
      · exact hb
  | bird canFly =>
      dsimp only
      split
      · exact modify_hunger_mem _ _ hb
      · exact hb
  | reptile v =>
      dsimp only
      split
      · exact modify_happiness_mem _ _ (modify_hunger_mem _ _ hb)
      · exact modify_hunger_mem _ _ hb

theorem applyVitalStep_age (a : Animal) (s : VitalStep) :
    (applyVitalStep a s).age = a.age := by
  cases s with
  | modHealth d => rfl
  | modHunger d => rfl
  | modHappiness d => rfl
  | daily d =>
      show (a.update_daily_status_poly d).age = a.age
      unfold Animal.update_daily_status_poly
      cases a.kind <;> dsimp only <;> split <;> rfl

theorem applyVitalStep_mem (a : Animal) (s : VitalStep)
    (h : vitalsInRange a) (hage : 0 ≤ a.age) (hs : s.valid) :
    vitalsInRange (applyVitalStep a s) := by
  cases s with
  | modHealth d => exact modify_health_mem a d h
  | modHunger d => exact modify_hunger_mem a d h
  | modHappiness d => exact modify_happiness_mem a d h
  | daily d =>
      obtain ⟨v1, v2, v3, v4, v5, v6⟩ := hs
      exact update_daily_status_poly_mem a d h hage (by linarith) (by linarith) (by linarith)

theorem foldl_vitalSteps_mem (steps : List VitalStep) (a : Animal)
    (h : vitalsInRange a) (hage : 0 ≤ a.age) (hv : ∀ s ∈ steps, s.valid) :
    vitalsInRange (steps.foldl applyVitalStep a) := by
  induction steps generalizing a with
  | nil => exact h
  | cons s rest ih =>
      have hmem := applyVitalStep_mem a s h hage (hv s (by simp))
      have hage' : 0 ≤ (applyVitalStep a s).age := by rw [applyVitalStep_age]; exact hage
      exact ih (applyVitalStep a s) hmem hage' (fun t ht => hv t (by simp [ht]))

/-- C3: for every animal whose vitals lie in `[0,100]` (in particular every
freshly constructed animal) and whose age is non-negative, after every call
of an arbitrary sequence of bounded-delta mutations (arbitrary signed
deltas) and daily updates (draws in the supports the source samples from),
all three vitals still lie in `[0,100]`: every prefix of the call sequence
leaves the animal inside the bounds. -/
theorem animal_vitals_always_in_range (a : Animal) (steps : List VitalStep)
    (h : vitalsInRange a) (hage : 0 ≤ a.age) (hv : ∀ s ∈ steps, s.valid) :
    ∀ n : ℕ, vitalsInRange ((steps.take n).foldl applyVitalStep a) := by
  intro n
  exact foldl_vitalSteps_mem (steps.take n) a h hage
    (fun s hs => hv s (steps.take_subset n hs))

/-- Witness for `animal_vitals_always_in_range`: a concrete mammal taken
through a health crash, a daily update and an oversized happiness boost. -/
theorem animal_vitals_always_in_range_witness :
    vitalsInRange (([VitalStep.modHealth (-250), VitalStep.daily ⟨10, 3, 2, true, true, false⟩,
        VitalStep.modHappiness 500].take 3).foldl applyVitalStep
      (Animal.make "Leo" "Lion" 3 DietType.carnivore "savannah" AnimalKind.mammal)) := by
  exact animal_vitals_always_in_range _ _ (by decide) (by decide) (by decide) 3

/-- Embeds the state of `Enclosure` from `zoo/enclosure.py`. -/
structure Enclosure where
  name : String
  capacity : ℤ
  enclosure_type : String
  animals : List Animal
  cleanliness : ℚ
  compatible_species : List String
  deriving DecidableEq, Repr

/-- Embeds `Enclosure.__init__`: empty, cleanliness 100. -/
def Enclosure.make (name : String) (capacity : ℤ) (etype : String)
    (compat : List String) : Enclosure :=
  { name := name, capacity := capacity, enclosure_type := etype, animals := [],
    cleanliness := 100, compatible_species := compat }

/-- The predation conflict checked in `Enclosure._is_animal_compatible`:
one of the two is a carnivore, the other is not, and the species differ. -/
def dietConflict (ex na : Animal) : Bool :=
  decide ((ex.diet = DietType.carnivore ∧ na.diet ≠ DietType.carnivore ∧
      ex.species ≠ na.species) ∨
    (na.diet = DietType.carnivore ∧ ex.diet ≠ DietType.carnivore ∧
      ex.species ≠ na.species))

/-- Embeds `Enclosure._is_animal_compatible`: an empty enclosure accepts any
animal (the allow-list is not even consulted); otherwise a non-empty
allow-list must contain the candidate's species, and no current resident may
be in predation conflict with the candidate. -/
def is_animal_compatible (e : Enclosure) (na : Animal) : Bool :=
  if e.animals = [] then true
  else if e.compatible_species ≠ [] ∧ na.species ∉ e.compatible_species then false
  else e.animals.all (fun ex => !(dietConflict ex na))

/-- Embeds `Enclosure.add_animal`: capacity check first (raises
`EnclosureError`), then compatibility (raises `CompatibilityError`), then
append; the habitat check only prints a warning. -/
def Enclosure.add_animal (e : Enclosure) (a : Animal) : Enclosure × Except ZooExc Bool :=
  if (e.animals.length : ℤ) ≥ e.capacity then
    (e, .error (.enclosureError ("Enclosure " ++ e.name ++ " is at capacity")))
  else if is_animal_compatible e a = false then
    (e, .error (.compatibilityError ("Cannot add " ++ a.species ++ " to enclosure")
      a.species (match e.animals with | [] => "none" | x :: _ => x.species)))
  else
    ({ e with animals := e.animals ++ [a] }, .ok true)

/-- Removal of the first case-insensitive name match from an animal list,
as in `Enclosure.remove_animal`. -/
def removeAnimalList : List Animal → String → List Animal × Option Animal
  | [], _ => ([], none)
  | x :: rest, aname =>
      if pyLower x.name = pyLower aname then (rest, some x)
      else
        let p := removeAnimalList rest aname
        (x :: p.1, p.2)

/-- Embeds `Enclosure.remove_animal`. -/
def Enclosure.remove_animal (e : Enclosure) (aname : String) : Enclosure × Option Animal :=
  let p := removeAnimalList e.animals aname
  ({ e with animals := p.1 }, p.2)

/-- Embeds the `{successful, failed, refused}` result dictionary of
`Enclosure.feed_animals`. -/
structure FeedResults where
  successful : List String
  failed : List String
  refused : List String
  deriving DecidableEq, Repr

/-- The message text of an exception. -/
def ZooExc.message : ZooExc → String
  | .enclosureError m => m
  | .compatibilityError m _ _ => m
  | .financialError m _ _ => m
  | .resourceError m => m
  | .valueError m => m
  | .nameError m => m

/-- Embeds `Enclosure.feed_animals`: required food mass is
`2.0 * resident_count`; a `ResourceError` from `use_food` is caught and
reported under `failed` with no animal fed; on success every resident's
`eat` runs and its outcome string is appended to `successful` (the embedded
`eat` implementations never raise, exactly as in the source, so the
`failed` bucket stays empty on this path); nothing is ever appended to
`refused`. -/
def Enclosure.feed_animals (e : Enclosure) (food_type : String) (rm : ResourceManager) :
    Enclosure × ResourceManager × FeedResults :=
  let total_food_needed : ℚ := (e.animals.length : ℚ) * 2
  let res := use_food rm food_type total_food_needed
  match res.2 with
  | .ok _ =>
      ({ e with animals := e.animals.map (fun a => (a.eat food_type).1) }, res.1,
        { successful := e.animals.map (fun a => a.name ++ ": " ++ (a.eat food_type).2),
          failed := [], refused := [] })
  | .error err =>
      (e, res.1,
        { successful := [], failed := ["Food supply error: " ++ err.message], refused := [] })

/-- The per-animal draws of one enclosure daily update: the shared
`uniform(2,8)` dirt factor and each resident's own `AnimalDraw` (indexed by
position in the resident list, each draw independent). -/
structure EncDraw where
  dirt : ℚ
  animalDraws : ℕ → AnimalDraw

/-- Daily update of each resident in order, each with its own draws. -/
def updateAnimals : List Animal → (ℕ → AnimalDraw) → List Animal
  | [], _ => []
  | a :: rest, o => a.update_daily_status_poly (o 0) :: updateAnimals rest (fun n => o (n + 1))

/-- Embeds `Enclosure.update_daily_status`: cleanliness degrades by
`resident_count * dirt` (floored at 0), every resident is updated, and if
the already-degraded cleanliness is below 50 every resident loses 5
happiness through the bounded helper. -/
def Enclosure.update_daily_status (e : Enclosure) (o : EncDraw) : Enclosure :=
  let clean1 := max 0 (e.cleanliness - (e.animals.length : ℚ) * o.dirt)
  let animals1 := updateAnimals e.animals o.animalDraws
  let animals2 := if clean1 < 50 then animals1.map (fun a => a.modify_happiness (-5)) else animals1
  { e with cleanliness := clean1, animals := animals2 }

theorem use_food_error_state (rm : ResourceManager) (ft : String) (amt : ℚ) (err : ZooExc)
    (h : (use_food rm ft amt).2 = .error err) : (use_food rm ft amt).1 = rm := by
  unfold use_food at h ⊢
  cases hl : lookupFood rm.food_supply ft with
  | none => rfl
  | some q =>
      rw [hl] at h
      dsimp only at h ⊢
      by_cases hq : q ≥ amt
      · rw [if_pos hq] at h
        exact absurd h (by simp)
      · rw [if_neg hq]

theorem updateAnimals_length (l : List Animal) (o : ℕ → AnimalDraw) :
    (updateAnimals l o).length = l.length := by
  induction l generalizing o with
  | nil => rfl
  | cons a rest ih => simp [updateAnimals, ih]

theorem enclosure_update_animal_count (e : Enclosure) (o : EncDraw) :
    (e.update_daily_status o).animals.length = e.animals.length := by
  unfold Enclosure.update_daily_status
  dsimp only
  split <;> simp [updateAnimals_length]

/-- A concrete adult male lion used by several witnesses. -/
def rex : Animal :=
  Animal.make "Rex" "Lion" 5 DietType.carnivore "savannah" AnimalKind.mammal

/-- A concrete lioness. -/
def nala : Animal :=
  Animal.make "Nala" "Lion" 2 DietType.carnivore "savannah" AnimalKind.mammal

/-- A concrete gazelle (herbivore). -/
def zia : Animal :=
  Animal.make "Zia" "Gazelle" 1 DietType.herbivore "savannah" AnimalKind.mammal

/-- A concrete tiger. -/
def asha : Animal :=
  Animal.make "Asha" "Tiger" 4 DietType.carnivore "jungle" AnimalKind.mammal

/-- A second concrete tiger. -/
def bala : Animal :=
  Animal.make "Bala" "Tiger" 3 DietType.carnivore "jungle" AnimalKind.mammal

/-- A concrete duck (a flying bird). -/
def pip : Animal :=
  Animal.make "Pip" "Duck" 1 DietType.omnivore "aviary" (AnimalKind.bird true)

/-- A one-slot enclosure already holding `rex`. -/
def denFull : Enclosure :=
  { Enclosure.make "Den" 1 "cave" [] with animals := [rex] }

/-- A roomy savannah enclosure holding `rex`. -/
def savannahEnc : Enclosure :=
  { Enclosure.make "Savannah" 5 "savannah" [] with animals := [rex] }

/-- A roomy jungle enclosure holding `asha`. -/
def jungleEnc : Enclosure :=
  { Enclosure.make "Jungle" 5 "jungle" [] with animals := [asha] }

/-- An empty enclosure with room for two. -/
def pond : Enclosure :=
  Enclosure.make "Pond" 2 "aviary" []

/-- A three-slot cave enclosure holding `rex`. -/
def denLion : Enclosure :=
  { Enclosure.make "Den" 3 "cave" [] with animals := [rex] }

/-- An enclosure whose allow-list contains only lions. -/
def catHouse : Enclosure :=
  Enclosure.make "Cat House" 5 "jungle" ["Lion"]

/-- C6 counterexample: the claim that an animal whose species matches a
current resident's species is always accepted is false.  An enclosure
configured with allow-list `["Lion"]` accepts a first Tiger (the empty
enclosure skips every compatibility check including the allow-list), but
then rejects a second Tiger — identical species to the resident — because
`Tiger` is not in the allow-list.  Also, an empty enclosure of capacity 0
rejects any animal with a capacity error, so an empty enclosure does not
accept arbitrary animals either. -/
theorem add_same_species_rejected_counterexample :
    (catHouse.add_animal asha).2 = .ok true ∧
    (((catHouse.add_animal asha).1).add_animal bala).2 =
      .error (.compatibilityError "Cannot add Tiger to enclosure" "Tiger" "Tiger") ∧
    ((Enclosure.make "Aviary" 0 "aviary" []).add_animal nala).2 =
      .error (.enclosureError "Enclosure Aviary is at capacity") := by
  refine ⟨by decide, by decide, by decide⟩

/-- C6 (amended): `add_animal` rejects with a capacity error whenever the
resident count equals the capacity, never changes membership on any
rejection, rejects a carnivore/non-carnivore pairing of differing species
with a compatibility error whenever capacity is not the blocker, accepts a
candidate whose species matches every current resident regardless of diet
provided the allow-list (when non-empty) contains that species, and an
empty enclosure accepts any animal provided its capacity is positive. -/
theorem enclosure_add_animal_spec (e : Enclosure) (a : Animal) :
    ((e.animals.length : ℤ) = e.capacity →
      (e.add_animal a).1 = e ∧
        (e.add_animal a).2 =
          .error (.enclosureError ("Enclosure " ++ e.name ++ " is at capacity"))) ∧
    (∀ exc, (e.add_animal a).2 = .error exc → (e.add_animal a).1 = e) ∧
    ((e.animals.length : ℤ) < e.capacity →
      ∀ ex ∈ e.animals,
        ((ex.diet = DietType.carnivore ∧ a.diet ≠ DietType.carnivore) ∨
          (a.diet = DietType.carnivore ∧ ex.diet ≠ DietType.carnivore)) →
        ex.species ≠ a.species →
        ∃ m s1 s2, (e.add_animal a).2 = .error (.compatibilityError m s1 s2)) ∧
    ((e.animals.length : ℤ) < e.capacity →
      (∀ ex ∈ e.animals, ex.species = a.species) →
      (e.compatible_species = [] ∨ a.species ∈ e.compatible_species) →
      e.add_animal a = ({ e with animals := e.animals ++ [a] }, .ok true)) ∧
    (e.animals = [] → 0 < e.capacity →
      e.add_animal a = ({ e with animals := [a] }, .ok true)) := by
  refine ⟨?_, ?_, ?_, ?_, ?_⟩
  · intro hfull
    unfold Enclosure.add_animal
    rw [if_pos hfull.ge]
    exact ⟨rfl, rfl⟩
  · intro exc hexc
    unfold Enclosure.add_animal at hexc ⊢
    split_ifs at hexc ⊢ <;> first | rfl | exact absurd hexc (by simp)
  · intro hcap ex hmem hdiet hsp
    have hne : e.animals ≠ [] := by
      intro h0
      rw [h0] at hmem
      exact absurd hmem (by simp)
    have hconf : dietConflict ex a = true := by
      unfold dietConflict
      apply decide_eq_true
      rcases hdiet with ⟨h1, h2⟩ | ⟨h1, h2⟩
      · exact Or.inl ⟨h1, h2, hsp⟩
      · exact Or.inr ⟨h1, h2, hsp⟩
    have hcompat : is_animal_compatible e a = false := by
      unfold is_animal_compatible
      rw [if_neg hne]
      by_cases hlist : e.compatible_species ≠ [] ∧ a.species ∉ e.compatible_species
      · rw [if_pos hlist]
      · rw [if_neg hlist]
        cases hall : e.animals.all (fun ex => !(dietConflict ex a)) with
        | false => rfl
        | true =>
            have hx := List.all_eq_true.mp hall ex hmem
            rw [hconf] at hx
            exact absurd hx (by simp)
    unfold Enclosure.add_animal
    rw [if_neg (not_le.mpr hcap), if_pos hcompat]
    exact ⟨_, _, _, rfl⟩
  · intro hcap hsame hlist
    have hcompat : is_animal_compatible e a = true := by
      unfold is_animal_compatible
      by_cases hemp : e.animals = []
      · rw [if_pos hemp]
      · rw [if_neg hemp, if_neg ?_]
        · refine List.all_eq_true.mpr fun ex hm => ?_
          have hconf : dietConflict ex a = false := by
            unfold dietConflict
            apply decide_eq_false
            rintro (⟨_, _, hs⟩ | ⟨_, _, hs⟩) <;> exact hs (hsame ex hm)
          rw [hconf]
          rfl
        · rcases hlist with h0 | hmemsp
          · rintro ⟨hne, _⟩
            exact hne h0
          · rintro ⟨_, hnmem⟩
            exact hnmem hmemsp
    unfold Enclosure.add_animal
    rw [if_neg (not_le.mpr hcap), if_neg (by rw [hcompat]; simp)]
  · intro hemp hcappos
    have h1 : ¬ ((e.animals.length : ℤ) ≥ e.capacity) := by
      rw [hemp]
      simpa using hcappos
    have h2 : is_animal_compatible e a = true := by
      unfold is_animal_compatible
      rw [if_pos hemp]
    unfold Enclosure.add_animal
    rw [if_neg h1, if_neg (by rw [h2]; simp), hemp]
    rfl

/-- Witness for `enclosure_add_animal_spec`: a full one-slot den rejects a
new lion with a capacity error and keeps its membership; a lion enclosure
rejects a gazelle with a compatibility error; a tiger joins a tiger with no
allow-list; an empty pond of capacity 2 accepts a duck. -/
theorem enclosure_add_animal_spec_witness :
    ((denFull.add_animal nala).1 = denFull) ∧
    (∃ m s1 s2,
      (savannahEnc.add_animal zia).2 = .error (.compatibilityError m s1 s2)) ∧
    ((jungleEnc.add_animal bala).2 = .ok true) ∧
    (pond.add_animal pip = ({ pond with animals := [pip] }, .ok true)) := by
  refine ⟨((enclosure_add_animal_spec denFull nala).1 (by decide)).1, ?_, ?_, ?_⟩
  · exact (enclosure_add_animal_spec savannahEnc zia).2.2.1 (by decide) rex (by decide)
      (Or.inl (by decide)) (by decide)
  · rw [(enclosure_add_animal_spec jungleEnc bala).2.2.2.1 (by decide)
      (by decide) (Or.inl (by decide))]
  · exact (enclosure_add_animal_spec pond pip).2.2.2.2 (by decide) (by decide)

/-- C9: `feed_animals` requires food mass `2.0 * resident_count`; when
`use_food` raises (unknown food type or insufficient supply) no animal
eats, the supply is unchanged and the failure is reported under `failed`;
when `use_food` succeeds every resident's `eat` runs and every outcome
string — refusals included — lands in `successful`; the `refused` bucket is
empty in every case. -/
theorem feed_animals_spec (e : Enclosure) (food_type : String) (rm : ResourceManager) :
    ((e.feed_animals food_type rm).2.2.refused = []) ∧
    (∀ err, (use_food rm food_type ((e.animals.length : ℚ) * 2)).2 = .error err →
      e.feed_animals food_type rm =
        (e, rm,
          { successful := [], failed := ["Food supply error: " ++ err.message],
            refused := [] })) ∧
    (∀ b, (use_food rm food_type ((e.animals.length : ℚ) * 2)).2 = .ok b →
      e.feed_animals food_type rm =
        ({ e with animals := e.animals.map (fun a => (a.eat food_type).1) },
          (use_food rm food_type ((e.animals.length : ℚ) * 2)).1,
          { successful := e.animals.map (fun a => a.name ++ ": " ++ (a.eat food_type).2),
            failed := [], refused := [] })) := by
  refine ⟨?_, ?_, ?_⟩
  · unfold Enclosure.feed_animals
    cases h : (use_food rm food_type ((e.animals.length : ℚ) * 2)).2 <;> simp [h]
  · intro err herr
    unfold Enclosure.feed_animals
    dsimp only
    rw [herr]
    rw [use_food_error_state rm food_type _ err herr]
  · intro b hok
    unfold Enclosure.feed_animals
    dsimp only
    rw [hok]

/-- Witness for `feed_animals_spec`: a lone carnivorous mammal offered
vegetables (supply available) refuses, and the refusal message still lands
in `successful`; offering the unknown food type `pizza` reports under
`failed` and leaves everything unchanged. -/
theorem feed_animals_spec_witness :
    (denLion.feed_animals "vegetables" (ResourceManager.make 1000) =
      (denLion, (use_food (ResourceManager.make 1000) "vegetables" 2).1,
        { successful := ["Rex: Rex sniffs the vegetables but refuses to eat it - needs meat!"],
          failed := [], refused := [] })) ∧
    (denLion.feed_animals "pizza" (ResourceManager.make 1000) =
      (denLion, ResourceManager.make 1000,
        { successful := [], failed := ["Food supply error: Unknown food type: pizza"],
          refused := [] })) := by
  have hamt : ((denLion.animals.length : ℚ) * 2) = 2 := by
    norm_num [denLion]
  constructor
  · have hu : (use_food (ResourceManager.make 1000) "vegetables"
        ((denLion.animals.length : ℚ) * 2)).2 = .ok true := by
      rw [hamt]
      decide
    rw [(feed_animals_spec denLion "vegetables" (ResourceManager.make 1000)).2.2 true hu, hamt]
    rfl
  · have hu : (use_food (ResourceManager.make 1000) "pizza"
        ((denLion.animals.length : ℚ) * 2)).2 =
        .error (.resourceError "Unknown food type: pizza") := by
      rw [hamt]
      decide
    rw [(feed_animals_spec denLion "pizza" (ResourceManager.make 1000)).2.1
      (.resourceError "Unknown food type: pizza") hu]
    rfl

/-- Embeds the state of `Zoo` from `zoo/zoo.py`. -/
structure Zoo where
  name : String
  enclosures : List Enclosure
  rm : ResourceManager
  visitors_today : ℤ
  total_visitors : ℤ
  days_operational : ℤ
  ticket_price : ℚ
  deriving DecidableEq, Repr

/-- Embeds `Zoo.__init__`: no enclosures, fresh resource manager, ticket
price fixed at 25. -/
def Zoo.make (name : String) (initial_funds : ℚ) : Zoo :=
  { name := name, enclosures := [], rm := ResourceManager.make initial_funds,
    visitors_today := 0, total_visitors := 0, days_operational := 0, ticket_price := 25 }

/-- Embeds `Zoo.get_animal_count`: sum of the enclosures' animal counts. -/
def Zoo.get_animal_count (z : Zoo) : ℕ :=
  (z.enclosures.map (fun e => e.animals.length)).sum

/-- Embeds `Zoo._find_enclosure`: first case-insensitive name match.  This
is the lookup used by `Zoo.add_animal` and `Zoo.feed_animals`. -/
def Zoo.find_enclosure (z : Zoo) (ename : String) : Option Enclosure :=
  z.enclosures.find? (fun e => pyLower e.name == pyLower ename)

/-- Embeds the loop of `Zoo.remove_enclosure`: the first exact (case
sensitive) name match is removed if empty (`EnclosureError` if it has
animals); if no exact match exists the list is unchanged and the call
returns `False`. -/
def remove_enclosure_list : List Enclosure → String → Except ZooExc (List Enclosure × Bool)
  | [], _ => .ok ([], false)
  | e :: rest, ename =>
      if e.name = ename then
        if e.animals.length > 0 then
          .error (.enclosureError ("Cannot remove enclosure " ++ ename ++ " with animals"))
        else .ok (rest, true)
      else
        match remove_enclosure_list rest ename with
        | .ok p => .ok (e :: p.1, p.2)
        | .error err => .error err

/-- Embeds `Zoo.remove_enclosure`. -/
def Zoo.remove_enclosure (z : Zoo) (ename : String) : Zoo × Except ZooExc Bool :=
  match remove_enclosure_list z.enclosures ename with
  | .ok p => ({ z with enclosures := p.1 }, .ok p.2)
  | .error err => (z, .error err)

/-- Daily update of every enclosure in order, each with its own draws. -/
def update_enclosures : List Enclosure → (ℕ → EncDraw) → List Enclosure
  | [], _ => []
  | e :: rest, o => e.update_daily_status (o 0) :: update_enclosures rest (fun n => o (n + 1))

/-- Embeds `Zoo.daily_update` (with `_simulate_visitors` and
`_pay_operating_costs` inlined in source order): simulate visitors
(`max(10, 100 + r + 2*animal_count)`, accumulate, credit income), update
every enclosure, attempt to pay `500 + 10*animal_count + 50*enclosure_count`
(a `FinancialError` is caught and only warned about), reset the daily
accumulators, increment `days_operational` and zero `visitors_today`.
The `ValueError` that `add_funds` would raise on a negative amount
propagates, mirroring the absence of a handler in the source. -/
def Zoo.daily_update (z : Zoo) (r : ℤ) (o : ℕ → EncDraw) : Zoo × Except ZooExc Unit :=
  let vt : ℤ := max 10 (100 + r + 2 * (z.get_animal_count : ℤ))
  let z0 := { z with visitors_today := vt, total_visitors := z.total_visitors + vt }
  let income : ℚ := (vt : ℚ) * z.ticket_price
  let ar := add_funds z0.rm income
  match ar.2 with
  | .error e => ({ z0 with rm := ar.1 }, .error e)
  | .ok _ =>
      let z1 := { z0 with rm := ar.1, enclosures := update_enclosures z0.enclosures o }
      let cost : ℚ := 500 + (z1.get_animal_count : ℚ) * 10 + (z1.enclosures.length : ℚ) * 50
      let rm2 := (spend_funds z1.rm cost "daily operations").1
      ({ z1 with
          rm := reset_daily_stats rm2
          days_operational := z.days_operational + 1
          visitors_today := 0 }, .ok ())

theorem add_funds_nonneg (rm : ResourceManager) (amount : ℚ) (h : 0 ≤ amount) :
    add_funds rm amount =
      ({ rm with funds := rm.funds + amount, daily_income := rm.daily_income + amount },
        .ok ()) := by
  unfold add_funds
  rw [if_neg (not_lt.mpr h)]

theorem spend_funds_fst (rm : ResourceManager) (amount : ℚ) (purpose : String)
    (h0 : 0 ≤ amount) :
    (spend_funds rm amount purpose).1 =
      if amount ≤ rm.funds then
        { rm with funds := rm.funds - amount, daily_costs := rm.daily_costs + amount }
      else rm := by
  unfold spend_funds
  rw [if_neg (not_lt.mpr h0)]
  by_cases hge : rm.funds ≥ amount
  · rw [if_pos hge, if_pos hge]
  · rw [if_neg hge, if_neg hge]

theorem update_enclosures_length (es : List Enclosure) (o : ℕ → EncDraw) :
    (update_enclosures es o).length = es.length := by
  induction es generalizing o with
  | nil => rfl
  | cons e rest ih => simp [update_enclosures, ih]

theorem update_enclosures_count (es : List Enclosure) (o : ℕ → EncDraw) :
    ((update_enclosures es o).map (fun e => e.animals.length)).sum =
      (es.map (fun e => e.animals.length)).sum := by
  induction es generalizing o with
  | nil => rfl
  | cons e rest ih =>
      simp [update_enclosures, enclosure_update_animal_count, ih]

/-- C1: one `daily_update` completes without raising (whatever the funds),
increments `days_operational` by exactly 1, resets both daily accumulators
and resets `visitors_today` to 0 — in particular an insufficient-funds
failure while paying operating costs is caught and does not prevent any of
this. -/
theorem daily_update_spec (z : Zoo) (r : ℤ) (o : ℕ → EncDraw)
    (htp : 0 ≤ z.ticket_price) :
    (z.daily_update r o).2 = .ok () ∧
    (z.daily_update r o).1.days_operational = z.days_operational + 1 ∧
    (z.daily_update r o).1.rm.daily_costs = 0 ∧
    (z.daily_update r o).1.rm.daily_income = 0 ∧
    (z.daily_update r o).1.visitors_today = 0 := by
  have hvt : (0 : ℤ) ≤ max 10 (100 + r + 2 * (z.get_animal_count : ℤ)) :=
    le_trans (by norm_num) (le_max_left _ _)
  have hinc : (0 : ℚ) ≤ ((max 10 (100 + r + 2 * (z.get_animal_count : ℤ)) : ℤ) : ℚ) *
      z.ticket_price :=
    mul_nonneg (by exact_mod_cast hvt) htp
  simp only [Zoo.daily_update]
  rw [add_funds_nonneg _ _ hinc]
  simp [reset_daily_stats]

/-- Witness for `daily_update_spec`: a zoo with zero funds (so the
operating-cost payment necessarily fails) still completes the day and its
day counter becomes 1. -/
theorem daily_update_spec_witness :
    ((Zoo.make "Oz" 0).daily_update 0 (fun _ => ⟨2, fun _ => ⟨5, 2, 1, false, false, false⟩⟩)).2 =
      .ok () ∧
    ((Zoo.make "Oz" 0).daily_update 0
        (fun _ => ⟨2, fun _ => ⟨5, 2, 1, false, false, false⟩⟩)).1.days_operational = 0 + 1 := by
  have h := daily_update_spec (Zoo.make "Oz" 0) 0
    (fun _ => ⟨2, fun _ => ⟨5, 2, 1, false, false, false⟩⟩) (by norm_num [Zoo.make])
  exact ⟨h.1, h.2.1⟩

/-- C2: in one `daily_update` the visitor count for the day is
`max(10, 100 + r + 2*animal_count)`, it is accumulated into the running
total, the income `visitors_today * ticket_price` is credited, and the
operating cost `500 + 10*animal_count + 50*enclosure_count` is only spent
afterwards: the final funds equal the old funds plus the income, minus the
cost exactly when the credited balance covers it.  In particular a day's
income can pay for the same day's costs. -/
theorem daily_update_order_spec (z : Zoo) (r : ℤ) (o : ℕ → EncDraw)
    (htp : 0 ≤ z.ticket_price) (hr1 : -20 ≤ r) (hr2 : r ≤ 50) :
    (z.daily_update r o).2 = .ok () ∧
    (z.daily_update r o).1.visitors_today = 0 ∧
    (z.daily_update r o).1.total_visitors =
      z.total_visitors + max 10 (100 + r + 2 * (z.get_animal_count : ℤ)) ∧
    (z.daily_update r o).1.rm.funds =
      (if 500 + (z.get_animal_count : ℚ) * 10 + (z.enclosures.length : ℚ) * 50 ≤
          z.rm.funds +
            ((max 10 (100 + r + 2 * (z.get_animal_count : ℤ)) : ℤ) : ℚ) * z.ticket_price
        then
          z.rm.funds +
              ((max 10 (100 + r + 2 * (z.get_animal_count : ℤ)) : ℤ) : ℚ) * z.ticket_price -
            (500 + (z.get_animal_count : ℚ) * 10 + (z.enclosures.length : ℚ) * 50)
        else
          z.rm.funds +
            ((max 10 (100 + r + 2 * (z.get_animal_count : ℤ)) : ℤ) : ℚ) * z.ticket_price) := by
  have hvt : (0 : ℤ) ≤ max 10 (100 + r + 2 * (z.get_animal_count : ℤ)) :=
    le_trans (by norm_num) (le_max_left _ _)
  have hinc : (0 : ℚ) ≤ ((max 10 (100 + r + 2 * (z.get_animal_count : ℤ)) : ℤ) : ℚ) *
      z.ticket_price :=
    mul_nonneg (by exact_mod_cast hvt) htp
  have hcount := update_enclosures_count z.enclosures o
  have hlen : (update_enclosures z.enclosures o).length = z.enclosures.length :=
    update_enclosures_length z.enclosures o
  have hcost0 : (0 : ℚ) ≤
      500 + (((z.enclosures.map (fun e => e.animals.length)).sum : ℕ) : ℚ) * 10 +
        (z.enclosures.length : ℚ) * 50 := by positivity
  simp only [Zoo.daily_update]
  rw [add_funds_nonneg _ _ hinc]
  simp only [Zoo.get_animal_count, hcount, hlen]
  rw [spend_funds_fst _ _ _ hcost0]
  refine ⟨by trivial, by trivial, by trivial, ?_⟩
  simp only [reset_daily_stats]
  split_ifs with hc
  · rfl
  · rfl

/-- Witness for `daily_update_order_spec`: a fresh 1000-dollar zoo with no
animals and no enclosures, `r = 0`: 100 visitors, 2500 income, 500 cost,
final funds 3000. -/
theorem daily_update_order_spec_witness :
    ((Zoo.make "Oz" 1000).daily_update 0
        (fun _ => ⟨2, fun _ => ⟨5, 2, 1, false, false, false⟩⟩)).1.rm.funds =
      (if 500 + ((Zoo.make "Oz" 1000).get_animal_count : ℚ) * 10 +
          (((Zoo.make "Oz" 1000).enclosures.length : ℚ)) * 50 ≤
          (Zoo.make "Oz" 1000).rm.funds +
            ((max 10 (100 + 0 + 2 * ((Zoo.make "Oz" 1000).get_animal_count : ℤ)) : ℤ) : ℚ) *
              (Zoo.make "Oz" 1000).ticket_price
        then
          (Zoo.make "Oz" 1000).rm.funds +
              ((max 10 (100 + 0 + 2 * ((Zoo.make "Oz" 1000).get_animal_count : ℤ)) : ℤ) : ℚ) *
                (Zoo.make "Oz" 1000).ticket_price -
            (500 + ((Zoo.make "Oz" 1000).get_animal_count : ℚ) * 10 +
              (((Zoo.make "Oz" 1000).enclosures.length : ℚ)) * 50)
        else
          (Zoo.make "Oz" 1000).rm.funds +
            ((max 10 (100 + 0 + 2 * ((Zoo.make "Oz" 1000).get_animal_count : ℤ)) : ℤ) : ℚ) *
              (Zoo.make "Oz" 1000).ticket_price) :=
  (daily_update_order_spec (Zoo.make "Oz" 1000) 0
    (fun _ => ⟨2, fun _ => ⟨5, 2, 1, false, false, false⟩⟩)
    (by norm_num [Zoo.make]) (by norm_num) (by norm_num)).2.2.2

theorem remove_enclosure_list_not_found (es : List Enclosure) (ename : String)
    (h : ∀ e ∈ es, e.name ≠ ename) : remove_enclosure_list es ename = .ok (es, false) := by
  induction es with
  | nil => rfl
  | cons e rest ih =>
      unfold remove_enclosure_list
      rw [if_neg (h e (by simp)), ih (fun e2 he2 => h e2 (by simp [he2]))]

/-- C10: enclosure removal matches names case-sensitively while the lookup
used by `add_animal` / `feed_animals` matches case-insensitively: in a zoo
holding an empty enclosure whose name differs from the query only in letter
case (and no enclosure whose name equals the query exactly),
`remove_enclosure` returns `False` and changes nothing, while
`_find_enclosure` still locates an enclosure of that case-folded name. -/
theorem remove_enclosure_case_sensitive (z : Zoo) (e : Enclosure) (m : String)
    (hmem : e ∈ z.enclosures) (hempty : e.animals = [])
    (hlow : pyLower e.name = pyLower m) (hne : e.name ≠ m)
    (hnone : ∀ e2 ∈ z.enclosures, e2.name ≠ m) :
    z.remove_enclosure m = (z, .ok false) ∧
    ∃ e2, z.find_enclosure m = some e2 ∧ pyLower e2.name = pyLower m := by
  constructor
  · unfold Zoo.remove_enclosure
    rw [remove_enclosure_list_not_found _ _ hnone]
  · have hsome : (z.enclosures.find? (fun e2 => pyLower e2.name == pyLower m)).isSome := by
      rw [List.find?_isSome]
      exact ⟨e, hmem, by simp [hlow]⟩
    obtain ⟨e2, he2⟩ := Option.isSome_iff_exists.mp hsome
    refine ⟨e2, he2, ?_⟩
    have := List.find?_some he2
    simpa using this

/-- Witness for `remove_enclosure_case_sensitive`: a zoo with one empty
enclosure named `Savannah`, queried as `savannah`. -/
theorem remove_enclosure_case_sensitive_witness :
    ({ Zoo.make "Oz" 1000 with
        enclosures := [Enclosure.make "Savannah" 3 "savannah" []] }.remove_enclosure
      "savannah" =
      ({ Zoo.make "Oz" 1000 with
          enclosures := [Enclosure.make "Savannah" 3 "savannah" []] }, .ok false)) ∧
    ∃ e2,
      ({ Zoo.make "Oz" 1000 with
          enclosures := [Enclosure.make "Savannah" 3 "savannah" []] }.find_enclosure
        "savannah") = some e2 ∧ pyLower e2.name = pyLower "savannah" := by
  have h := remove_enclosure_case_sensitive
    { Zoo.make "Oz" 1000 with enclosures := [Enclosure.make "Savannah" 3 "savannah" []] }
    (Enclosure.make "Savannah" 3 "savannah" []) "savannah"
    (by simp) (by rfl) (by decide) (by decide) (by decide)
  exact h

/-- The notifications `ObservableAnimal._modify_health` can emit
(`core/observer.py`), with their data payloads. -/
inductive NotifEvent where
  | health_critical (old_health new_health : ℚ)
  | health_improved (old_health new_health : ℚ)
  | animal_died (cause : String) (final_health : ℚ)
  deriving DecidableEq, Repr

/-- Embeds `ObservableAnimal._modify_health`: the bounded base mutation,
followed by the threshold bookkeeping against the fixed
`_health_threshold = 30.0` in three mutually exclusive `elif` branches
(downward crossing, upward crossing, death).  Returns the mutated animal
and the list of notifications sent to the attached observers. -/
def obs_modify_health (a : Animal) (amount : ℚ) : Animal × List NotifEvent :=
  let a2 := a.modify_health amount
  let evs :=
    if a2.health ≤ 30 ∧ a.health > 30 then
      [NotifEvent.health_critical a.health a2.health]
    else if a2.health > 30 ∧ a.health ≤ 30 then
      [NotifEvent.health_improved a.health a2.health]
    else if a2.health ≤ 0 ∧ a.health > 0 then
      [NotifEvent.animal_died "health_depleted" a2.health]
    else []
  (a2, evs)

/-- One record of the `HealthMonitor` alert history. -/
inductive AlertRecord where
  | critical_health (animal species : String) (health : ℚ)
  | health_improved (animal species : String) (health : ℚ)
  | animal_died (animal species : String) (cause : String)
  deriving DecidableEq, Repr

/-- Embeds the state of `HealthMonitor`: the set of currently-critical
animal keys (a Python `set`, here a `Finset`) and the alert history. -/
structure HealthMonitor where
  critical_animals : Finset String
  alert_history : List AlertRecord
  deriving DecidableEq

/-- The `name_species` key the monitor derives for an animal. -/
def animal_key (a : Animal) : String :=
  a.name ++ "_" ++ a.species

/-- Embeds `HealthMonitor.update` with its three handlers: add the key on
`health_critical`, remove it (guardedly, hence `Finset.erase`) on
`health_improved` and `animal_died`, and append a history record. -/
def monitor_update (m : HealthMonitor) (a : Animal) : NotifEvent → HealthMonitor
  | .health_critical _ nh =>
      { critical_animals := insert (animal_key a) m.critical_animals,
        alert_history := m.alert_history ++ [.critical_health a.name a.species nh] }
  | .health_improved _ nh =>
      { critical_animals := m.critical_animals.erase (animal_key a),
        alert_history := m.alert_history ++ [.health_improved a.name a.species nh] }
  | .animal_died cause _ =>
      { critical_animals := m.critical_animals.erase (animal_key a),
        alert_history := m.alert_history ++ [.animal_died a.name a.species cause] }

/-- One `_modify_health` call on an observable animal with the
`HealthMonitor` attached: every emitted notification is delivered to the
monitor in order. -/
def runObsModify (p : Animal × HealthMonitor) (amount : ℚ) : Animal × HealthMonitor :=
  ((obs_modify_health p.1 amount).1,
    (obs_modify_health p.1 amount).2.foldl
      (fun m2 ev => monitor_update m2 (obs_modify_health p.1 amount).1 ev) p.2)

theorem obs_modify_health_fst (a : Animal) (amount : ℚ) :
    (obs_modify_health a amount).1 = a.modify_health amount := rfl

theorem modify_health_key (a : Animal) (amount : ℚ) :
    animal_key (a.modify_health amount) = animal_key a := rfl

theorem obs_modify_health_critical (a : Animal) (amount : ℚ)
    (hold : a.health > 30) (hnew : (a.modify_health amount).health ≤ 30) :
    (obs_modify_health a amount).2 =
      [NotifEvent.health_critical a.health (a.modify_health amount).health] := by
  unfold obs_modify_health
  dsimp only
  rw [if_pos ⟨hnew, hold⟩]

theorem obs_modify_health_improved (a : Animal) (amount : ℚ)
    (hold : a.health ≤ 30) (hnew : (a.modify_health amount).health > 30) :
    (obs_modify_health a amount).2 =
      [NotifEvent.health_improved a.health (a.modify_health amount).health] := by
  unfold obs_modify_health
  dsimp only
  rw [if_neg (fun hc => absurd hnew (not_lt.mpr hc.1)), if_pos ⟨hnew, hold⟩]

/-- C7: a `_modify_health` whose pre-value is above 30 and post-value at
most 30 emits exactly `health_critical`; the converse crossing emits
exactly `health_improved`; a single mutation from above 30 to at most 0
emits only the critical crossing (the death branch is an unreachable
`elif`); immediately after a downward crossing the monitor's critical set
contains the animal's `name_species` key, and after a subsequent mutation
restoring health above 30 it no longer does. -/
theorem observable_health_threshold_spec (a : Animal) (m : HealthMonitor) (d1 d2 : ℚ) :
    (a.health > 30 → (a.modify_health d1).health ≤ 30 →
      (obs_modify_health a d1).2 =
        [NotifEvent.health_critical a.health (a.modify_health d1).health] ∧
      animal_key a ∈ (runObsModify (a, m) d1).2.critical_animals ∧
      (((a.modify_health d1).modify_health d2).health > 30 →
        animal_key a ∉ (runObsModify (runObsModify (a, m) d1) d2).2.critical_animals)) ∧
    (a.health ≤ 30 → (a.modify_health d1).health > 30 →
      (obs_modify_health a d1).2 =
        [NotifEvent.health_improved a.health (a.modify_health d1).health]) ∧
    (a.health > 30 → (a.modify_health d1).health ≤ 0 →
      (obs_modify_health a d1).2 =
        [NotifEvent.health_critical a.health (a.modify_health d1).health] ∧
      ∀ c h, NotifEvent.animal_died c h ∉ (obs_modify_health a d1).2) := by
  refine ⟨?_, ?_, ?_⟩
  · intro hold hnew
    have hevs := obs_modify_health_critical a d1 hold hnew
    have h2 : (runObsModify (a, m) d1).2 =
        monitor_update m (a.modify_health d1)
          (NotifEvent.health_critical a.health (a.modify_health d1).health) := by
      simp only [runObsModify, obs_modify_health_fst, hevs, List.foldl_cons, List.foldl_nil]
    have h3 : (runObsModify (a, m) d1).2.critical_animals =
        insert (animal_key a) m.critical_animals := by
      rw [h2]
      rfl
    refine ⟨hevs, by rw [h3]; exact Finset.mem_insert_self _ _, ?_⟩
    intro hnew2
    have h1 : (runObsModify (a, m) d1).1 = a.modify_health d1 := rfl
    have hevs2 := obs_modify_health_improved (a.modify_health d1) d2 hnew hnew2
    have h4 : (runObsModify (runObsModify (a, m) d1) d2).2 =
        monitor_update (runObsModify (a, m) d1).2 ((a.modify_health d1).modify_health d2)
          (NotifEvent.health_improved (a.modify_health d1).health
            ((a.modify_health d1).modify_health d2).health) := by
      simp only [runObsModify, obs_modify_health_fst, h1, hevs2, List.foldl_cons,
        List.foldl_nil]
    have h5 : (runObsModify (runObsModify (a, m) d1) d2).2.critical_animals =
        (insert (animal_key a) m.critical_animals).erase (animal_key a) := by
      rw [h4]
      show ((runObsModify (a, m) d1).2.critical_animals).erase
          (animal_key ((a.modify_health d1).modify_health d2)) = _
      rw [h3, modify_health_key, modify_health_key]
    rw [h5]
    exact Finset.not_mem_erase _ _
  · intro hold hnew
    exact obs_modify_health_improved a d1 hold hnew
  · intro hold hnew0
    have hnew : (a.modify_health d1).health ≤ 30 := le_trans hnew0 (by norm_num)
    have hevs := obs_modify_health_critical a d1 hold hnew
    refine ⟨hevs, fun c h hmem => ?_⟩
    rw [hevs] at hmem
    simp at hmem

/-- Witness for `observable_health_threshold_spec`: `rex` (health 100)
loses 75 health — crossing to 25, reported critical, key entering the
critical set — then gains 50, crossing back to 75 and leaving the set. -/
theorem observable_health_threshold_spec_witness :
    ((obs_modify_health rex (-75)).2 =
      [NotifEvent.health_critical rex.health (rex.modify_health (-75)).health]) ∧
    animal_key rex ∈ (runObsModify (rex, ⟨∅, []⟩) (-75)).2.critical_animals ∧
    animal_key rex ∉
      (runObsModify (runObsModify (rex, ⟨∅, []⟩) (-75)) 50).2.critical_animals := by
  have hold : rex.health > 30 := by norm_num [rex, Animal.make]
  have hnew : (rex.modify_health (-75)).health ≤ 30 := by
    norm_num [rex, Animal.make, Animal.modify_health, min_def, max_def]
  have hnew2 : ((rex.modify_health (-75)).modify_health 50).health > 30 := by
    norm_num [rex, Animal.make, Animal.modify_health, min_def, max_def]
  have h := (observable_health_threshold_spec rex ⟨∅, []⟩ (-75) 50).1 hold hnew
  exact ⟨h.1, h.2.1, h.2.2 hnew2⟩

/-- Embeds the daily update of an `ObservableAnimal`: the class inherits
`update_daily_status` unchanged from `Animal`, and that method writes the
name-mangled private vitals directly — it never calls `_modify_health` —
so a daily update emits no notification whatsoever. -/
def obs_update_daily_status (a : Animal) (d : AnimalDraw) : Animal × List NotifEvent :=
  (a.update_daily_status d, [])

/-- C8 counterexample: an observable animal at health 31 with hunger 75,
after one daily update with draws `u1 = 10` (hunger to 85 > 70) and
`u2 = 4`, drops to health 27 — a downward crossing of the 30.0 threshold —
yet the daily update emits no notification at all, because
`Animal.update_daily_status` assigns the private health field directly
instead of going through the bounded `_modify_health` operation. -/
theorem daily_decay_no_notification_counterexample :
    ({ rex with health := 31, hunger := 75 } : Animal).health > 30 ∧
    (obs_update_daily_status { rex with health := 31, hunger := 75 }
        ⟨10, 4, 1, false, false, false⟩).1.health ≤ 30 ∧
    (obs_update_daily_status { rex with health := 31, hunger := 75 }
        ⟨10, 4, 1, false, false, false⟩).2 = [] := by
  refine ⟨by norm_num [rex, Animal.make], ?_, rfl⟩
  norm_num [obs_update_daily_status, Animal.update_daily_status, rex, Animal.make,
    min_def, max_def]

/-- C8 (amended): event-driven health mutations go through the bounded
`_modify_health` override and a downward crossing there emits
`health_critical`, but the daily per-animal decay does not: it mutates the
private vitals directly (still clamped), bypasses the override, and emits
no notification, even when it crosses the 30.0 threshold from above. -/
theorem daily_decay_bypasses_observer (a : Animal) (d : AnimalDraw) (amount : ℚ) :
    (obs_update_daily_status a d).2 = [] ∧
    (obs_update_daily_status a d).1 = a.update_daily_status d ∧
    (a.health > 30 → (a.modify_health amount).health ≤ 30 →
      (obs_modify_health a amount).2 =
        [NotifEvent.health_critical a.health (a.modify_health amount).health]) := by
  exact ⟨rfl, rfl, fun hold hnew => obs_modify_health_critical a amount hold hnew⟩

/-- Witness for `daily_decay_bypasses_observer`: the daily update of `nala`
emits nothing, and an event-driven 80-point health loss on `nala` emits the
critical notification. -/
theorem daily_decay_bypasses_observer_witness :
    (obs_update_daily_status nala ⟨5, 2, 1, false, false, false⟩).2 = [] ∧
    (obs_modify_health nala (-80)).2 =
      [NotifEvent.health_critical nala.health (nala.modify_health (-80)).health] := by
  have h := daily_decay_bypasses_observer nala ⟨5, 2, 1, false, false, false⟩ (-80)
  refine ⟨h.1, h.2.2 (by norm_num [nala, Animal.make]) ?_⟩
  norm_num [nala, Animal.make, Animal.modify_health, min_def, max_def]

/-- Embeds the structured result dictionary returned by event `trigger`
methods in `core/events.py` (the keys the two financial-impact events
use). -/
structure EventResult where
  success : Bool
  messages : List String
  financial_impact : Option ℤ
  visitor_impact : Option ℤ
  lost_animal : Option String
  deriving DecidableEq, Repr

/-- Embeds `UnexpectedExpenseEvent.trigger`: attempt to debit the drawn
expense; on success report the impact.  The source wraps the spend in
`try ... except FinancialError`, but `events.py` never imports
`FinancialError`, so when the spend raises, evaluating the handler clause
itself raises `NameError`, which propagates to the caller; the
`success = False, financial_impact = 0` result below the handler is
unreachable.  The state component carries the zoo as left at the point the
exception escapes (unchanged, since the failed spend mutates nothing). -/
def unexpected_expense_trigger (z : Zoo) (expense : ℤ) : Zoo × Except ZooExc EventResult :=
  let sp := spend_funds z.rm (expense : ℚ) "unexpected maintenance"
  match sp.2 with
  | .ok _ =>
      ({ z with rm := sp.1 },
        .ok { success := true,
              messages := ["Unexpected maintenance cost: " ++ toString expense],
              financial_impact := some (-expense), visitor_impact := none,
              lost_animal := none })
  | .error _ => ({ z with rm := sp.1 }, .error (.nameError "name FinancialError is not defined"))

/-- The `(enclosure index, animal)` pairs `AnimalEscapeEvent.trigger`
chooses from: every resident with happiness below 40. -/
def potential_escapers (z : Zoo) : List (ℕ × Animal) :=
  (z.enclosures.enum.map (fun p =>
    (p.2.animals.filter (fun a => decide (a.happiness < 40))).map (fun a => (p.1, a)))).flatten

/-- Embeds `AnimalEscapeEvent.trigger`: with no unhappy animal it reports
failure; otherwise the chosen animal (uniform choice modelled by an
arbitrary index) is removed from its enclosure FIRST, and only then is the
recovery penalty debited — with no `try` around the spend, so an
insufficient-funds `FinancialError` propagates out of the event after the
animal has already been removed. -/
def animal_escape_trigger (z : Zoo) (penalty visitor_loss : ℤ) (choice : ℕ) :
    Zoo × Except ZooExc EventResult :=
  let esc := potential_escapers z
  match esc.get? (choice % esc.length) with
  | none =>
      (z, .ok { success := false, messages := ["No unhappy animals to escape"],
                financial_impact := none, visitor_impact := none, lost_animal := none })
  | some p =>
      let z2 := { z with enclosures := z.enclosures.enum.map (fun (q : ℕ × Enclosure) =>
        if q.1 = p.1 then (q.2.remove_animal p.2.name).1 else q.2) }
      let sp := spend_funds z2.rm (penalty : ℚ) "escape recovery"
      match sp.2 with
      | .ok _ =>
          ({ z2 with rm := sp.1 },
            .ok { success := true,
                  messages := [p.2.name ++ " escaped", toString penalty ++ " spent on recovery"],
                  financial_impact := some (-penalty),
                  visitor_impact := some (-visitor_loss), lost_animal := some p.2.name })
      | .error err => ({ z2 with rm := sp.1 }, .error err)

/-- A lion made unhappy enough (happiness 20) to be an escape candidate. -/
def unhappyLion : Animal :=
  { Animal.make "Leo" "Lion" 4 DietType.carnivore "savannah" AnimalKind.mammal with
      happiness := 20 }

/-- A zoo with 100 dollars and one enclosure holding `unhappyLion`. -/
def escapeZoo : Zoo :=
  { Zoo.make "Oz" 100 with
      enclosures := [{ Enclosure.make "Savannah" 3 "savannah" [] with
        animals := [unhappyLion] }] }

/-- C5 (the code bug, evaluated at the failing input): with funds 100 and a
drawn expense of 300, `UnexpectedExpenseEvent.trigger` does not return the
`success = False` zero-impact result — its own `except FinancialError`
clause raises `NameError` (the name is never imported in `events.py`) and
that propagates upward; and with a drawn penalty of 500,
`AnimalEscapeEvent.trigger` propagates the `FinancialError` itself (there
is no handler at all) after having already removed the escapee, so the
failed event is not effect-free either. -/
theorem event_insufficient_funds_bug :
    (unexpected_expense_trigger escapeZoo 300).2 =
      .error (.nameError "name FinancialError is not defined") ∧
    (unexpected_expense_trigger escapeZoo 300).1 = escapeZoo ∧
    (animal_escape_trigger escapeZoo 500 60 0).2 =
      .error (insufficientFundsExc "escape recovery" 100 ((500 : ℤ) : ℚ)) ∧
    ((animal_escape_trigger escapeZoo 500 60 0).1.enclosures.map (fun e => e.animals)) =
      [[]] := by
  have h300 : ((300 : ℤ) : ℚ) = 300 := by norm_num
  have h500 : ((500 : ℤ) : ℚ) = 500 := by norm_num
  refine ⟨?_, ?_, ?_, ?_⟩
  · simp only [unexpected_expense_trigger, h300]
    decide
  · simp only [unexpected_expense_trigger, h300]
    decide
  · simp only [animal_escape_trigger, h500, insufficientFundsExc]
    decide
  · simp only [animal_escape_trigger, h500]
    decide

end Ozoo
